import Mathlib

/-!
# Verification of koishi-plugin-bilibili-notify core behaviors

Shallow embedding of the update-detection and risk-mitigated API access
layer of the plugin, together with theorems settling the frozen claims.

Embedded components (each definition is a direct translation of the named
TypeScript source):
* `filterNewDynamics`, `checkUserDynamicsSuccess`
  — `src/core/dynamic/DynamicDetector.ts`
* `RiskControlManager` state machine — `RiskControlManager` class
* `smartRetryBackoff` — `BilibiliHttpService.smartRetry`
* `LiveListener` poll check / start / end / title-change handlers
  — `LiveListener` class
* `handleConnectionError` and the auto-reconnect step relation
  — `DanmuListenerService`
* `getWbiKeys`, `encWbi`, `getWbi` — `BilibiliWbi` class

JavaScript numbers are modelled as `Int`/`Nat` where the source only
performs integer arithmetic, and as `ℚ` where `Math.random()` enters
a computation.  External collaborators (the HTTP fetch, the content
filter, the md5 digest, `encodeURIComponent`) are passed as explicit
oracle parameters, as the spec scopes them out of the core.
-/

/-! ## String helpers

`strIncludes s sub` models JavaScript `s.includes(sub)`:
`sub` occurs contiguously inside `s`. -/

def listStarts : List Char → List Char → Bool
  | [], _ => true
  | _ :: _, [] => false
  | p :: ps, c :: cs => p == c && listStarts ps cs

def listOccurs (pat : List Char) : List Char → Bool
  | [] => pat.isEmpty
  | c :: rest => listStarts pat (c :: rest) || listOccurs pat rest

def strIncludes (s sub : String) : Bool :=
  listOccurs sub.toList s.toList

/-! ## Post-Update Detector (`DynamicDetector.ts`)

`filterNewDynamics` only reads the `id_str` field of a dynamic item, so
the embedded item carries exactly that field. -/

structure DynamicItem where
  id_str : String
deriving DecidableEq, Repr

/-- Translation of `DynamicDetector.filterNewDynamics`:
`dynamics.slice(0, 1)` when no last id is recorded, `slice(0, 1)` when
`findIndex` returns `-1`, and `slice(0, lastIndex)` otherwise. -/
def filterNewDynamics (dynamics : List DynamicItem) (lastDynamicId : Option String) :
    List DynamicItem :=
  match lastDynamicId with
  | none => dynamics.take 1
  | some lastId =>
    match dynamics.findIdx? (fun d => d.id_str = lastId) with
    | none => dynamics.take 1
    | some lastIndex => dynamics.take lastIndex

/-- Success path of `DynamicDetector.checkUserDynamics` after a feed fetch:
the list of dynamics processed (in the order of the `for (const dynamic of
newDynamics)` loop) and the updated `lastDynamicIds` entry
(`dynamics[0].id_str` whenever the feed is non-empty). -/
def checkUserDynamicsSuccess (dynamics : List DynamicItem) (lastDynamicId : Option String) :
    List DynamicItem × Option String :=
  (filterNewDynamics dynamics lastDynamicId,
    match dynamics with
    | [] => lastDynamicId
    | d :: _ => some d.id_str)

/-- Concrete newest-first feed used as counterexample input. -/
def demoFeed : List DynamicItem :=
  [⟨"p5"⟩, ⟨"p4"⟩, ⟨"p3"⟩, ⟨"p2"⟩, ⟨"p1"⟩]

/-! ## Risk-Control State Tracker (`RiskControlManager`) -/

structure RiskControlStatus where
  isBlocked : Bool
  blockStartTime : Option Int
  blockDuration : Int
  consecutiveFailures : Nat
  lastFailureTime : Option Int
  lastError : Option String
  errorType : Option String
  lastLogTime : Option Int
deriving DecidableEq, Repr

def MAX_CONSECUTIVE_FAILURES : Nat := 3
def BASE_BLOCK_DURATION : Int := 5 * 60 * 1000
def MAX_BLOCK_DURATION : Int := 60 * 60 * 1000
def LOG_INTERVAL : Int := 5 * 60 * 1000

def initialRiskStatus : RiskControlStatus :=
  { isBlocked := false
    blockStartTime := none
    blockDuration := 0
    consecutiveFailures := 0
    lastFailureTime := none
    lastError := none
    errorType := none
    lastLogTime := none }

/-- `RiskControlManager.analyzeErrorType`. -/
def analyzeErrorType (error : String) : String :=
  if strIncludes error "-352" then "访问频率限制"
  else if strIncludes error "-503" then "服务暂时不可用"
  else if strIncludes error "-509" then "请求过于频繁"
  else if strIncludes error "-799" then "IP被限制"
  else if strIncludes error "User-Agent" then "User-Agent异常"
  else if strIncludes error "风控" || strIncludes error "拦截" then "风控检测"
  else if strIncludes error "频繁" then "请求频率过高"
  else "未知风控类型"

/-- `RiskControlManager.isRiskControlError`. -/
def isRiskControlError (error : String) : Bool :=
  ["-352", "请求被风控", "请求被拦截", "风控", "User-Agent", "请求过于频繁",
    "-503", "-509", "-799"].any (fun keyword => strIncludes error keyword)

/-- `RiskControlManager.activateBlock` (with `Date.now()` passed as `now`).
Only reachable from `recordFailure` with `consecutiveFailures ≥ 3`, so the
truncated `Nat` subtraction agrees with the JS number arithmetic there. -/
def activateBlock (now : Int) (st : RiskControlStatus) : RiskControlStatus :=
  let multiplier := min (st.consecutiveFailures - MAX_CONSECUTIVE_FAILURES + 1) 4
  { st with
      blockDuration := min (BASE_BLOCK_DURATION * 2 ^ multiplier) MAX_BLOCK_DURATION
      isBlocked := true
      blockStartTime := some now
      lastLogTime := some now }

/-- `RiskControlManager.recordFailure` (context only feeds logging). -/
def recordFailure (now : Int) (error : String) (st : RiskControlStatus) : RiskControlStatus :=
  if isRiskControlError error then
    let st' := { st with
        consecutiveFailures := st.consecutiveFailures + 1
        lastFailureTime := some now
        lastError := some error
        errorType := some (analyzeErrorType error) }
    if st'.consecutiveFailures ≥ MAX_CONSECUTIVE_FAILURES then activateBlock now st'
    else st'
  else st

/-- `RiskControlManager.recordSuccess`. -/
def recordSuccess (st : RiskControlStatus) : RiskControlStatus :=
  { st with
      consecutiveFailures := 0
      lastFailureTime := none
      lastError := none
      errorType := none }

/-- `RiskControlManager.clearBlock`. -/
def clearBlock (st : RiskControlStatus) : RiskControlStatus :=
  { st with
      isBlocked := false
      blockStartTime := none
      blockDuration := 0
      consecutiveFailures := 0
      lastLogTime := none }

/-- `RiskControlManager.isCurrentlyBlocked`: returns the query answer and
the (possibly lazily cleared) successor state. -/
def isCurrentlyBlocked (now : Int) (st : RiskControlStatus) : Bool × RiskControlStatus :=
  if !st.isBlocked then (false, st)
  else
    match st.blockStartTime with
    | some t =>
      if now - t ≥ st.blockDuration then (false, clearBlock st)
      else (true, st)
    | none => (true, st)

/-- A sequence of `recordFailure` calls. -/
def runFailures (events : List (Int × String)) (st : RiskControlStatus) : RiskControlStatus :=
  events.foldl (fun s e => recordFailure e.1 e.2 s) st

/-! ## Rate-Limited HTTP Client (`BilibiliHttpService`)

Constants from `HTTP_CONFIG` in `src/constants.ts` (milliseconds). -/

def DEFAULT_MAX_RETRIES : Nat := 3
def BASE_RETRY_DELAY : ℚ := 1000
def MAX_RETRY_DELAY : ℚ := 10000
def RISK_CONTROL_MIN_DELAY : ℚ := 10000
def RISK_CONTROL_MAX_DELAY : ℚ := 30000
def RISK_CONTROL_EXTENDED_MIN_DELAY : ℚ := 30000
def RISK_CONTROL_EXTENDED_MAX_DELAY : ℚ := 90000

structure RetryStepResult where
  delay : ℚ
  uaRotated : Bool
  uaIndex : Nat
deriving Repr

/-- Backoff computation of one failed iteration of
`BilibiliHttpService.smartRetry` (the code between catching the error and
`await this.sleep(delay)`), with the default `HTTP_CONFIG` retry options of
`getWithRetry`/`postWithRetry`.  `attempt` is the 0-based loop counter of
the attempt that failed, `r1`/`r2` are the two `Math.random()` draws,
`uaIndex`/`uaCount` the current User-Agent rotation state. -/
def smartRetryBackoff (errorMsg : String) (attempt : Nat) (r1 r2 : ℚ)
    (uaIndex uaCount : Nat) : RetryStepResult :=
  let delay := min (BASE_RETRY_DELAY * 2 ^ attempt) MAX_RETRY_DELAY
  if strIncludes errorMsg "-352" then
    let delay := max delay
      (RISK_CONTROL_MIN_DELAY + r1 * (RISK_CONTROL_MAX_DELAY - RISK_CONTROL_MIN_DELAY))
    let delay :=
      if attempt ≥ 1 then
        max delay
          (RISK_CONTROL_EXTENDED_MIN_DELAY +
            r2 * (RISK_CONTROL_EXTENDED_MAX_DELAY - RISK_CONTROL_EXTENDED_MIN_DELAY))
      else delay
    { delay := delay, uaRotated := true, uaIndex := (uaIndex + 1) % uaCount }
  else
    { delay := delay, uaRotated := false, uaIndex := uaIndex }

/-! ## Live-Session Monitor (`LiveListener`)

The `LiveRoom` record of the listener.  `pushTimer` holds a disposer
closure in the source; its observable state is whether a repeating
"still live" timer is currently armed. -/

structure LiveRoom where
  roomId : String
  uid : String
  uname : String
  title : String
  isLive : Bool
  liveTime : Option Int
  pushTimerArmed : Bool
  isBlocked : Bool
  onlineCount : Option String
deriving DecidableEq, Repr

/-- The fields of the fetched room status that `checkLiveStatus` reads. -/
structure LiveStatus where
  live_status : Int
  title : String
deriving DecidableEq, Repr

/-- One notification target of a subscription (`sub.targets` entry). -/
structure NotifTarget where
  platform : String
  channelId : String
  live : Bool
deriving DecidableEq, Repr

structure Subscription where
  uid : String
  targets : List NotifTarget
deriving DecidableEq, Repr

/-- Observable side effects of the live handlers. -/
inductive LiveEvent where
  /-- `sendNotification` with `subType` `start`/`end`/`push` to a target. -/
  | notify (subType : String) (target : NotifTarget)
  /-- `ctx.setInterval(() => sendTimedNotification ...)` armed. -/
  | armTimer
  /-- an armed `room.pushTimer` disposer invoked. -/
  | cancelTimer
deriving DecidableEq, Repr

/-- `LiveListener.sendLiveNotification`: image generation (external) either
succeeds (`imageOk`) or aborts the send; on success one notification per
target whose `live` flag is set. -/
def sendLiveNotification (imageOk : Bool) (sub : Subscription) (subType : String) :
    List LiveEvent :=
  if imageOk then
    (sub.targets.filter (fun t => t.live)).map (fun t => LiveEvent.notify subType t)
  else []

/-- `LiveListener.handleLiveStart`.  `filter` is the external
`filterService.checkLiveFilter` oracle, `sub?` the result of
`findSubscriptionByUid`, `pushTime` the configured repeat interval in
hours, `now` is `Date.now()`. -/
def handleLiveStart (filter : String → Bool) (now : Int) (pushTime : ℚ)
    (sub? : Option Subscription) (imageOk : Bool) (room : LiveRoom)
    (liveStatus : LiveStatus) : LiveRoom × List LiveEvent :=
  let isBlocked := filter liveStatus.title
  let room := { room with isBlocked := isBlocked }
  if isBlocked then (room, [])
  else
    let room := { room with liveTime := some now }
    match sub? with
    | none => (room, [])
    | some sub =>
      let events := sendLiveNotification imageOk sub "start"
      if pushTime > 0 then ({ room with pushTimerArmed := true }, events ++ [.armTimer])
      else (room, events)

/-- `LiveListener.handleLiveEnd`. -/
def handleLiveEnd (sub? : Option Subscription) (imageOk : Bool) (room : LiveRoom) :
    LiveRoom × List LiveEvent :=
  if room.isBlocked then ({ room with isBlocked := false }, [])
  else
    let (room, cancelEvents) :=
      if room.pushTimerArmed then
        ({ room with pushTimerArmed := false }, [LiveEvent.cancelTimer])
      else (room, ([] : List LiveEvent))
    match sub? with
    | none => (room, cancelEvents)
    | some sub =>
      let events := sendLiveNotification imageOk sub "end"
      ({ room with liveTime := none, onlineCount := none }, cancelEvents ++ events)

/-- `LiveListener.handleTitleChange`. -/
def handleTitleChange (filter : String → Bool) (pushTime : ℚ)
    (sub? : Option Subscription) (room : LiveRoom) (liveStatus : LiveStatus) :
    LiveRoom × List LiveEvent :=
  let isBlocked := filter liveStatus.title
  let wasBlocked := room.isBlocked
  if !wasBlocked && isBlocked then
    let (room, events) :=
      if room.pushTimerArmed then
        ({ room with pushTimerArmed := false }, [LiveEvent.cancelTimer])
      else (room, ([] : List LiveEvent))
    ({ room with isBlocked := true }, events)
  else if wasBlocked && !isBlocked then
    let (room, events) :=
      match sub? with
      | some _ =>
        if pushTime > 0 then ({ room with pushTimerArmed := true }, [LiveEvent.armTimer])
        else (room, ([] : List LiveEvent))
      | none => (room, ([] : List LiveEvent))
    ({ room with isBlocked := false }, events)
  else (room, [])

/-- Success path of `LiveListener.checkLiveStatus` (fetch succeeded with
`liveStatus`).  Note the source assigns `room.title = liveStatus.title`
*before* comparing `room.title !== liveStatus.title`, exactly as embedded
here. -/
def checkLiveStatusSuccess (filter : String → Bool) (now : Int) (pushTime : ℚ)
    (sub? : Option Subscription) (imageOk : Bool) (room : LiveRoom)
    (liveStatus : LiveStatus) : LiveRoom × List LiveEvent :=
  let wasLive := room.isLive
  let isNowLive := liveStatus.live_status = 1
  let room := { room with title := liveStatus.title }
  let (room, events) :=
    if !wasLive && isNowLive then
      handleLiveStart filter now pushTime sub? imageOk room liveStatus
    else if wasLive && !isNowLive then
      handleLiveEnd sub? imageOk room
    else if isNowLive && room.title ≠ liveStatus.title then
      handleTitleChange filter pushTime sub? room liveStatus
    else (room, [])
  ({ room with isLive := isNowLive }, events)

/-! ## Real-Time Push Bridge (`DanmuListenerService`)

Per-room view of the bridge: `connections.get(roomId)` is `some` a
`LiveRoomConnection` record or `none` when the room has no record in the
map. -/

structure LiveRoomConnection where
  isConnected : Bool
  lastHeartbeat : Int
  reconnectCount : Nat
deriving DecidableEq, Repr

/-- Observable actions of the bridge for one room. -/
inductive BridgeAction where
  /-- `logger.error('... 重连次数超过限制，停止重连')`. -/
  | errorLog
  /-- `eventHandlers.disconnected?.(roomId)` fired by `disconnectRoom`. -/
  | disconnectedEvent
  /-- `eventHandlers.connected?.(roomId)` fired by `onOpen`. -/
  | connectedEvent
  /-- a reconnect `setTimeout(..., reconnectInterval)` scheduled. -/
  | scheduleReconnect
  /-- `connectRoom(roomId)` invoked (a redial attempt initiated). -/
  | redial
deriving DecidableEq, Repr

/-- `DanmuListenerService.handleConnectionError` for one room: increments
`reconnectCount`; past the cap of 3 it logs an error and `disconnectRoom`
removes the record (emitting `disconnected`); otherwise it schedules a
delayed reconnect. -/
def handleConnectionError :
    Option LiveRoomConnection → Option LiveRoomConnection × List BridgeAction
  | none => (none, [])
  | some c =>
    let c := { c with isConnected := false, reconnectCount := c.reconnectCount + 1 }
    if c.reconnectCount > 3 then
      (none, [.errorLog, .disconnectedEvent])
    else
      (some c, [.scheduleReconnect])

/-- The sources of automatic bridge activity for one room while the
service runs.  `connError` covers both the `onClose` handler and the
heartbeat checker timeout (both call `handleConnectionError`);
`timerFire connectOk` is a previously scheduled reconnect timeout firing,
whose `connectRoom` call succeeds iff `connectOk`; `openEvent`/`inbound`
are the `onOpen` handler and any heartbeat-carrying inbound event. -/
inductive BridgeStep where
  | connError
  | timerFire (connectOk : Bool) (freshConn : LiveRoomConnection)
  | openEvent
  | inbound (now : Int)
deriving Repr

/-- One automatic step of the bridge for a room.  Every branch guards on
`connections.get(roomId)`/`connections.has(roomId)` exactly as the source
does: the reconnect timeout body checks `this.connections.has(roomId)`
before redialing, `onOpen` and `updateHeartbeat` look the record up before
mutating it. -/
def bridgeAutoStep (step : BridgeStep) (conn? : Option LiveRoomConnection) :
    Option LiveRoomConnection × List BridgeAction :=
  match step, conn? with
  | .connError, s => handleConnectionError s
  | .timerFire _ _, none => (none, [])
  | .timerFire connectOk fresh, some _ =>
    -- disconnectRoom, settle delay, then connectRoom; a successful
    -- connectRoom stores a fresh record with `reconnectCount = 0`.
    if connectOk then (some { fresh with reconnectCount := 0 }, [.disconnectedEvent, .redial])
    else (none, [.disconnectedEvent, .redial])
  | .openEvent, none => (none, [.connectedEvent])
  | .openEvent, some c =>
    (some { c with reconnectCount := 0, isConnected := true }, [.connectedEvent])
  | .inbound _, none => (none, [])
  | .inbound now, some c => (some { c with lastHeartbeat := now }, [])

/-- Run a sequence of automatic bridge steps, accumulating actions. -/
def runBridge (steps : List BridgeStep) (conn? : Option LiveRoomConnection) :
    Option LiveRoomConnection × List BridgeAction :=
  steps.foldl
    (fun acc step =>
      let r := bridgeAutoStep step acc.1
      (r.1, acc.2 ++ r.2))
    (conn?, [])

/-! ## Signed-Request Signer (`BilibiliWbi`)

`fetch` (the `getWithRetry` call for the nav endpoint, already reduced to
the two extracted keys), the md5 digest and `encodeURIComponent` are
external oracles. -/

structure WbiKeys where
  img_key : String
  sub_key : String
deriving DecidableEq, Repr

structure WbiCache where
  wbiKeys : Option WbiKeys
  wbiKeysExpiry : Int
deriving DecidableEq, Repr

def WBI_CACHE_DURATION : Int := 5 * 60 * 1000

def MIXIN_KEY_ENC_TAB : List Nat :=
  [46, 47, 18, 2, 53, 8, 23, 32, 15, 50, 10, 31, 58, 3, 45, 35, 27, 43, 5, 49, 33, 9,
    42, 19, 29, 28, 14, 39, 12, 38, 41, 13, 37, 48, 7, 16, 24, 55, 40, 61, 26, 17, 0,
    1, 60, 51, 30, 4, 22, 25, 54, 21, 56, 59, 6, 63, 57, 62, 11, 36, 20, 34, 44, 52]

/-- `BilibiliWbi.getMixinKey`: permute the key characters through the
table, join, truncate to 32 (out-of-range indices contribute nothing to
the JS `join('')`). -/
def getMixinKey (orig : String) : String :=
  String.mk ((MIXIN_KEY_ENC_TAB.filterMap (fun n => orig.toList.get? n)).take 32)

/-- `BilibiliWbi.getWbiKeys`: serve a valid cache; otherwise fetch,
falling back to the stale cache on fetch failure; hard-fail only with an
empty cache. -/
def getWbiKeys (now : Int) (fetch : Except String WbiKeys) (st : WbiCache) :
    Except String WbiKeys × WbiCache :=
  match st.wbiKeys with
  | some ks =>
    if now < st.wbiKeysExpiry then (.ok ks, st)
    else
      match fetch with
      | .ok newKs =>
        (.ok newKs, { wbiKeys := some newKs, wbiKeysExpiry := now + WBI_CACHE_DURATION })
      | .error _ => (.ok ks, st)
  | none =>
    match fetch with
    | .ok newKs =>
      (.ok newKs, { wbiKeys := some newKs, wbiKeysExpiry := now + WBI_CACHE_DURATION })
    | .error _ => (.error "获取WBI密钥失败", st)

/-- Parameter values accepted by `encWbi` (`string | number`; the
`object` case only ever holds values whose `toString` is taken, so it is
subsumed by `str`). -/
inductive ParamValue where
  | str (s : String)
  | num (n : Int)
deriving DecidableEq, Repr

def ParamValue.toStr : ParamValue → String
  | .str s => s
  | .num n => toString n

/-- JS object update `Object.assign(params, { k: v })` on the insertion-
ordered key/value list view of the object: overwrite an existing key in
place, else append. -/
def setParam (params : List (String × ParamValue)) (k : String) (v : ParamValue) :
    List (String × ParamValue) :=
  if params.any (fun p => p.1 = k) then
    params.map (fun p => if p.1 = k then (k, v) else p)
  else params ++ [(k, v)]

/-- JS object property read. -/
def lookupParam (params : List (String × ParamValue)) (k : String) : Option ParamValue :=
  (params.find? (fun p => p.1 = k)).map (fun p => p.2)

/-- The characters removed from values by `WBI_CONFIG.CHAR_FILTER`. -/
def wbiCharFilter (s : String) : String :=
  String.mk (s.toList.filter (fun c => !(['!', '\x27', '(', ')', '*'].contains c)))

/-- `BilibiliWbi.encWbi`: mutates `params` by injecting `wts`, sorts the
keys, builds the filtered/encoded query and appends the `w_rid` digest.
Returns the query string and the post-call state of the caller's
`params` object. -/
def encWbi (md5 encodeURIComponent : String → String)
    (params : List (String × ParamValue)) (img_key sub_key : String) (currTime : Int) :
    String × List (String × ParamValue) :=
  let mixinKey := getMixinKey (img_key ++ sub_key)
  let params := setParam params "wts" (.num currTime)
  let sortedKeys := (params.map (fun p => p.1)).mergeSort (fun a b => a ≤ b)
  let query := String.intercalate "&"
    (sortedKeys.map (fun key =>
      let value := wbiCharFilter (((lookupParam params key).getD (.str "")).toStr)
      encodeURIComponent key ++ "=" ++ encodeURIComponent value))
  let wbiSign := md5 (query ++ mixinKey)
  (query ++ "&w_rid=" ++ wbiSign, params)

/-- `BilibiliWbi.getWbi`: obtain keys (cache/fetch/stale fallback) and
sign.  Returns the result envelope, the new key cache, and the post-call
state of the caller's `params` object. -/
def getWbi (md5 encodeURIComponent : String → String) (now : Int)
    (fetch : Except String WbiKeys) (st : WbiCache)
    (params : List (String × ParamValue)) (currTime : Int) :
    Except String String × WbiCache × List (String × ParamValue) :=
  match getWbiKeys now fetch st with
  | (.ok ks, st') =>
    let r := encWbi md5 encodeURIComponent params ks.img_key ks.sub_key currTime
    (.ok r.1, st', r.2)
  | (.error e, st') => (.error e, st', params)

/-! ## Concrete witness inputs -/

def demoTarget : NotifTarget := { platform := "qq", channelId := "123456", live := true }

def demoSub : Subscription := { uid := "u1", targets := [demoTarget] }

/-- Filter oracle rejecting titles that contain "bad". -/
def demoFilter : String → Bool := fun t => strIncludes t "bad"

/-- A room currently live with stored title "A" that the filter marks
filtered (`isBlocked = true`), repeat timer not armed. -/
def demoRoomLiveFilteredA : LiveRoom :=
  { roomId := "8334650", uid := "u1", uname := "alice", title := "bad A", isLive := true,
    liveTime := some 0, pushTimerArmed := false, isBlocked := true, onlineCount := none }

/-- A fetched status: still live, but with a different, unfiltered title. -/
def demoStatusLiveGood : LiveStatus := { live_status := 1, title := "good B" }

/-- An offline room with nothing armed. -/
def demoRoomOff : LiveRoom :=
  { roomId := "8334650", uid := "u1", uname := "alice", title := "", isLive := false,
    liveTime := none, pushTimerArmed := false, isBlocked := false, onlineCount := none }

def demoStatusLiveBad : LiveStatus := { live_status := 1, title := "bad title" }

def demoStatusOff : LiveStatus := { live_status := 0, title := "bad title" }

def demoConn : LiveRoomConnection :=
  { isConnected := false, lastHeartbeat := 0, reconnectCount := 3 }

def demoFreshConn : LiveRoomConnection :=
  { isConnected := false, lastHeartbeat := 0, reconnectCount := 0 }

/-! ## Theorems -/

/-- **C6** — For every fetched non-empty feed, if the detector has no
recorded last-seen id for the subject, or the recorded last-seen id does
not occur anywhere in the fetched list, then exactly one item — the
newest (first) item of the list — is reported as new. -/
theorem C6_single_newest_baseline (d : DynamicItem) (rest : List DynamicItem) :
    filterNewDynamics (d :: rest) none = [d] ∧
    ∀ lastId : String, (∀ x ∈ d :: rest, x.id_str ≠ lastId) →
      filterNewDynamics (d :: rest) (some lastId) = [d] := by
  constructor
  · simp [filterNewDynamics]
  · intro lastId h
    have hnone : (d :: rest).findIdx? (fun x => x.id_str = lastId) = none := by
      simp only [List.findIdx?_eq_none_iff, decide_eq_true_eq]
      intro x hx
      simpa using h x hx
    simp [filterNewDynamics, hnone]

theorem C6_single_newest_baseline_witness :
    filterNewDynamics demoFeed none = [⟨"p5"⟩] ∧
    filterNewDynamics demoFeed (some "gone") = [⟨"p5"⟩] := by
  have h := C6_single_newest_baseline ⟨"p5"⟩ [⟨"p4"⟩, ⟨"p3"⟩, ⟨"p2"⟩, ⟨"p1"⟩]
  exact ⟨h.1, h.2 "gone" (by decide)⟩

/-- **C1 counterexample** — with the newest-first feed
`[p5, p4, p3, p2, p1]` and last-seen id `p3`, the detector reports the
two strictly newer items but processes them as `[p5, p4]`, the fetched
list's own newest-first order, not the oldest-to-newest order `[p4, p5]`
asserted by the claim. -/
theorem C1_counterexample_emission_order :
    (checkUserDynamicsSuccess demoFeed (some "p3")).1 = [⟨"p5"⟩, ⟨"p4"⟩] ∧
    (checkUserDynamicsSuccess demoFeed (some "p3")).1 ≠
      [DynamicItem.mk "p4", DynamicItem.mk "p5"] := by
  decide

/-- **C1 (amended)** — For every fetched feed and recorded last-seen post
id occurring at index `i` of the newest-first list, the detector reports
as new exactly the `i` items preceding the last-seen id (the last-seen
item and older items are excluded) and processes/emits them in the
fetched list's own newest-first order, i.e. the reported list is
precisely `dynamics.take i`; afterwards the stored last-seen id becomes
the newest fetched id. -/
theorem C1_newest_first_emission (dynamics : List DynamicItem) (lastId : String) (i : Nat)
    (h : dynamics.findIdx? (fun d => d.id_str = lastId) = some i) :
    (checkUserDynamicsSuccess dynamics (some lastId)).1 = dynamics.take i ∧
    (checkUserDynamicsSuccess dynamics (some lastId)).1.length = i ∧
    ∀ (d₀ : DynamicItem) (rest : List DynamicItem), dynamics = d₀ :: rest →
      (checkUserDynamicsSuccess dynamics (some lastId)).2 = some d₀.id_str := by
  refine ⟨?_, ?_, ?_⟩
  · simp [checkUserDynamicsSuccess, filterNewDynamics, h]
  · have hlen : i < dynamics.length :=
      (List.findIdx?_eq_some_iff_findIdx_eq.mp h).1
    simp [checkUserDynamicsSuccess, filterNewDynamics, h]
    omega
  · intro d₀ rest hd
    subst hd
    simp [checkUserDynamicsSuccess]

theorem C1_newest_first_emission_witness :
    (checkUserDynamicsSuccess demoFeed (some "p3")).1 = demoFeed.take 2 ∧
    (checkUserDynamicsSuccess demoFeed (some "p3")).1.length = 2 := by
  have h := C1_newest_first_emission demoFeed "p3" 2 (by decide)
  exact ⟨h.1, h.2.1⟩

/-- Helper: a qualifying `recordFailure` increments the consecutive
counter by one (whether or not it escalates into a block). -/
theorem recordFailure_qualifying_count (now : Int) (e : String) (st : RiskControlStatus)
    (hq : isRiskControlError e = true) :
    (recordFailure now e st).consecutiveFailures = st.consecutiveFailures + 1 := by
  unfold recordFailure
  rw [hq]
  by_cases h3 : st.consecutiveFailures + 1 ≥ MAX_CONSECUTIVE_FAILURES <;>
    simp [h3, activateBlock]

/-- Helper: over a run of qualifying failures the counter accumulates. -/
theorem runFailures_count (events : List (Int × String))
    (hq : ∀ e ∈ events, isRiskControlError e.2 = true) (st : RiskControlStatus) :
    (runFailures events st).consecutiveFailures =
      st.consecutiveFailures + events.length := by
  induction events generalizing st with
  | nil => simp [runFailures]
  | cons x xs ih =>
    have hx : isRiskControlError x.2 = true := hq x (by simp)
    have hxs : ∀ e ∈ xs, isRiskControlError e.2 = true := fun e he => hq e (by simp [he])
    have : runFailures (x :: xs) st = runFailures xs (recordFailure x.1 x.2 st) := by
      simp [runFailures]
    rw [this, ih hxs, recordFailure_qualifying_count _ _ _ hx]
    simp only [List.length_cons]
    omega

/-- Helper: the block duration written by an escalation is positive. -/
theorem blockDuration_pos (m : Nat) :
    0 < min (BASE_BLOCK_DURATION * 2 ^ m) MAX_BLOCK_DURATION := by
  refine lt_min ?_ (by norm_num [MAX_BLOCK_DURATION])
  have h2 : (0 : Int) < 2 ^ m := pow_pos (by norm_num) m
  have : (0 : Int) < BASE_BLOCK_DURATION := by norm_num [BASE_BLOCK_DURATION]
  positivity

/-- Helper: field values written by `activateBlock`. -/
theorem activateBlock_fields (now : Int) (st : RiskControlStatus) :
    (activateBlock now st).isBlocked = true ∧
    (activateBlock now st).consecutiveFailures = st.consecutiveFailures ∧
    (activateBlock now st).blockStartTime = some now ∧
    (activateBlock now st).blockDuration =
      min (BASE_BLOCK_DURATION *
        2 ^ (min (st.consecutiveFailures - MAX_CONSECUTIVE_FAILURES + 1) 4))
        MAX_BLOCK_DURATION := by
  simp [activateBlock]

/-- Helper: a blocked state queried at its own block start instant
answers `true` (the block has positive remaining duration). -/
theorem isCurrentlyBlocked_at_start (st : RiskControlStatus) (t : Int)
    (hb : st.isBlocked = true) (hs : st.blockStartTime = some t)
    (hd : 0 < st.blockDuration) :
    (isCurrentlyBlocked t st).1 = true := by
  simp only [isCurrentlyBlocked, hb, hs, Bool.not_true]
  have hlt : ¬ (st.blockDuration ≤ 0) := by omega
  simp [hlt]

/-- **C2** — For every sequence of `recordFailure` calls with qualifying
(abuse-related) errors and no interleaved success, once the
consecutive-failure count reaches 3 the tracker enters the blocked state
(`isCurrentlyBlocked` at the escalation instant answers `true`), and the
block duration set at each escalation equals
`min(BASE_BLOCK_DURATION * 2 ^ min(failures - 3 + 1, 4), MAX_BLOCK_DURATION)`
(base 5 minutes, cap 60 minutes). -/
theorem C2_escalation_formula (es : List (Int × String)) (t : Int) (e : String)
    (hq : ∀ x ∈ es ++ [(t, e)], isRiskControlError x.2 = true)
    (hk : 3 ≤ (es ++ [(t, e)]).length) :
    (runFailures (es ++ [(t, e)]) initialRiskStatus).isBlocked = true ∧
    (runFailures (es ++ [(t, e)]) initialRiskStatus).consecutiveFailures =
      (es ++ [(t, e)]).length ∧
    (runFailures (es ++ [(t, e)]) initialRiskStatus).blockStartTime = some t ∧
    (isCurrentlyBlocked t (runFailures (es ++ [(t, e)]) initialRiskStatus)).1 = true ∧
    (runFailures (es ++ [(t, e)]) initialRiskStatus).blockDuration =
      min (BASE_BLOCK_DURATION * 2 ^ (min ((es ++ [(t, e)]).length - 3 + 1) 4))
        MAX_BLOCK_DURATION := by
  have hqes : ∀ x ∈ es, isRiskControlError x.2 = true := fun x hx => hq x (by simp [hx])
  have hqe : isRiskControlError e = true := hq (t, e) (by simp)
  have hsplit : runFailures (es ++ [(t, e)]) initialRiskStatus =
      recordFailure t e (runFailures es initialRiskStatus) := by
    simp [runFailures, List.foldl_append]
  have hcount : (runFailures es initialRiskStatus).consecutiveFailures = es.length := by
    rw [runFailures_count es hqes]
    simp [initialRiskStatus]
  have hlen : 2 ≤ es.length := by
    simp at hk
    omega
  have hfinalcount : es.length + 1 ≥ MAX_CONSECUTIVE_FAILURES := by
    unfold MAX_CONSECUTIVE_FAILURES
    omega
  have hstep : recordFailure t e (runFailures es initialRiskStatus) =
      activateBlock t { runFailures es initialRiskStatus with
        consecutiveFailures := es.length + 1
        lastFailureTime := some t
        lastError := some e
        errorType := some (analyzeErrorType e) } := by
    unfold recordFailure
    rw [hqe]
    simp only [hcount, hfinalcount, if_pos, if_true]
  have hlen' : (es ++ [(t, e)]).length = es.length + 1 := by simp
  rw [hsplit, hstep, hlen']
  obtain ⟨hb, hc, hs, hd⟩ := activateBlock_fields t
    { runFailures es initialRiskStatus with
        consecutiveFailures := es.length + 1
        lastFailureTime := some t
        lastError := some e
        errorType := some (analyzeErrorType e) }
  refine ⟨hb, ?_, hs, ?_, ?_⟩
  · rw [hc]
  · refine isCurrentlyBlocked_at_start _ t hb hs ?_
    rw [hd]
    exact blockDuration_pos _
  · rw [hd]
    simp [MAX_CONSECUTIVE_FAILURES]

theorem C2_escalation_formula_witness :
    (runFailures ([(0, "-352"), (1, "-352")] ++ [(2, "-352")]) initialRiskStatus).isBlocked
      = true ∧
    (runFailures ([(0, "-352"), (1, "-352")] ++ [(2, "-352")])
      initialRiskStatus).blockDuration = 10 * 60 * 1000 := by
  have h := C2_escalation_formula [(0, "-352"), (1, "-352")] 2 "-352"
    (by decide) (by decide)
  refine ⟨h.1, ?_⟩
  rw [h.2.2.2.2]
  decide

/-- **C7** — `recordSuccess` always resets the consecutive-failure count
to 0 and never clears an active block (the `isBlocked`/`blockStartTime`/
`blockDuration` fields are untouched); an active block ends only when the
elapsed time since block start reaches the block duration, detected
lazily by the next `isCurrentlyBlocked` query, which then reports not
blocked and clears the block state. -/
theorem C7_success_reset_lazy_expiry (st : RiskControlStatus) (now t : Int) :
    ((recordSuccess st).consecutiveFailures = 0 ∧
      (recordSuccess st).isBlocked = st.isBlocked ∧
      (recordSuccess st).blockStartTime = st.blockStartTime ∧
      (recordSuccess st).blockDuration = st.blockDuration) ∧
    (st.isBlocked = true → st.blockStartTime = some t →
      ((now - t < st.blockDuration → isCurrentlyBlocked now st = (true, st)) ∧
        (st.blockDuration ≤ now - t →
          (isCurrentlyBlocked now st).1 = false ∧
          (isCurrentlyBlocked now st).2.isBlocked = false ∧
          (isCurrentlyBlocked now st).2 = clearBlock st))) := by
  refine ⟨⟨rfl, rfl, rfl, rfl⟩, ?_⟩
  intro hb hs
  constructor
  · intro hlt
    have h : ¬ (now - t ≥ st.blockDuration) := by omega
    simp [isCurrentlyBlocked, hb, hs, h]
  · intro hge
    have h : now - t ≥ st.blockDuration := hge
    simp [isCurrentlyBlocked, hb, hs, h, clearBlock]

theorem C7_success_reset_lazy_expiry_witness :
    (recordSuccess { initialRiskStatus with
        isBlocked := true, blockStartTime := some 100, blockDuration := 600000,
        consecutiveFailures := 3 }).consecutiveFailures = 0 ∧
    (recordSuccess { initialRiskStatus with
        isBlocked := true, blockStartTime := some 100, blockDuration := 600000,
        consecutiveFailures := 3 }).isBlocked = true ∧
    (isCurrentlyBlocked 200 { initialRiskStatus with
        isBlocked := true, blockStartTime := some 100, blockDuration := 600000,
        consecutiveFailures := 3 }).1 = true ∧
    (isCurrentlyBlocked 600100 { initialRiskStatus with
        isBlocked := true, blockStartTime := some 100, blockDuration := 600000,
        consecutiveFailures := 3 }).1 = false := by
  have h1 := C7_success_reset_lazy_expiry { initialRiskStatus with
      isBlocked := true, blockStartTime := some 100, blockDuration := 600000,
      consecutiveFailures := 3 } 200 100
  have h2 := C7_success_reset_lazy_expiry { initialRiskStatus with
      isBlocked := true, blockStartTime := some 100, blockDuration := 600000,
      consecutiveFailures := 3 } 600100 100
  refine ⟨h1.1.1, by rw [h1.1.2.1], ?_, ?_⟩
  · rw [(h1.2 rfl rfl).1 (by decide)]
  · exact ((h2.2 rfl rfl).2 (by decide)).1

/-- **C3** — In `getWithRetry`/`postWithRetry` (default `HTTP_CONFIG`
options), whenever a failed attempt's error carries the abuse-detection
signal `-352`, the delay before the first retry (failed attempt 0) lies
in [10s, 30s), the delay before every retry from the second onward
(failed attempt ≥ 1) lies in [30s, 90s), and the client rotates its
User-Agent index before each such retry. -/
theorem C3_abuse_backoff_bounds (errorMsg : String) (attempt : Nat) (r1 r2 : ℚ)
    (uaIndex uaCount : Nat) (h352 : strIncludes errorMsg "-352" = true)
    (hr1 : 0 ≤ r1) (hr1' : r1 < 1) (hr2 : 0 ≤ r2) (hr2' : r2 < 1) :
    (smartRetryBackoff errorMsg attempt r1 r2 uaIndex uaCount).uaRotated = true ∧
    (smartRetryBackoff errorMsg attempt r1 r2 uaIndex uaCount).uaIndex =
      (uaIndex + 1) % uaCount ∧
    (attempt = 0 →
      10000 ≤ (smartRetryBackoff errorMsg attempt r1 r2 uaIndex uaCount).delay ∧
      (smartRetryBackoff errorMsg attempt r1 r2 uaIndex uaCount).delay < 30000) ∧
    (1 ≤ attempt →
      30000 ≤ (smartRetryBackoff errorMsg attempt r1 r2 uaIndex uaCount).delay ∧
      (smartRetryBackoff errorMsg attempt r1 r2 uaIndex uaCount).delay < 90000) := by
  have hexp : min (BASE_RETRY_DELAY * 2 ^ attempt) MAX_RETRY_DELAY ≤ 10000 := by
    have h := min_le_right (BASE_RETRY_DELAY * 2 ^ attempt) MAX_RETRY_DELAY
    rw [MAX_RETRY_DELAY] at h
    exact h
  have hrand1lo : (10000 : ℚ) ≤ RISK_CONTROL_MIN_DELAY +
      r1 * (RISK_CONTROL_MAX_DELAY - RISK_CONTROL_MIN_DELAY) := by
    have : (0 : ℚ) ≤ r1 * 20000 := by positivity
    simp only [RISK_CONTROL_MIN_DELAY, RISK_CONTROL_MAX_DELAY]
    linarith
  have hrand1hi : RISK_CONTROL_MIN_DELAY +
      r1 * (RISK_CONTROL_MAX_DELAY - RISK_CONTROL_MIN_DELAY) < 30000 := by
    have : r1 * 20000 < 1 * 20000 :=
      mul_lt_mul_of_pos_right hr1' (by norm_num)
    simp only [RISK_CONTROL_MIN_DELAY, RISK_CONTROL_MAX_DELAY]
    linarith
  have hrand2lo : (30000 : ℚ) ≤ RISK_CONTROL_EXTENDED_MIN_DELAY +
      r2 * (RISK_CONTROL_EXTENDED_MAX_DELAY - RISK_CONTROL_EXTENDED_MIN_DELAY) := by
    have : (0 : ℚ) ≤ r2 * 60000 := by positivity
    simp only [RISK_CONTROL_EXTENDED_MIN_DELAY, RISK_CONTROL_EXTENDED_MAX_DELAY]
    linarith
  have hrand2hi : RISK_CONTROL_EXTENDED_MIN_DELAY +
      r2 * (RISK_CONTROL_EXTENDED_MAX_DELAY - RISK_CONTROL_EXTENDED_MIN_DELAY) < 90000 := by
    have : r2 * 60000 < 1 * 60000 :=
      mul_lt_mul_of_pos_right hr2' (by norm_num)
    simp only [RISK_CONTROL_EXTENDED_MIN_DELAY, RISK_CONTROL_EXTENDED_MAX_DELAY]
    linarith
  refine ⟨?_, ?_, ?_, ?_⟩
  · simp [smartRetryBackoff, h352]
  · simp [smartRetryBackoff, h352]
  · intro h0
    subst h0
    simp only [smartRetryBackoff, h352, if_true, ge_iff_le, Nat.not_succ_le_zero, if_false,
      Nat.le_zero, if_neg (by omega : ¬ (0 : Nat) ≥ 1)]
    constructor
    · exact le_trans hrand1lo (le_max_right _ _)
    · exact max_lt (lt_of_le_of_lt hexp (by norm_num)) hrand1hi
  · intro h1
    simp only [smartRetryBackoff, h352, if_true, ge_iff_le, h1, if_pos]
    constructor
    · exact le_trans hrand2lo (le_max_right _ _)
    · refine max_lt (max_lt (lt_of_le_of_lt hexp (by norm_num)) ?_) hrand2hi
      exact lt_trans hrand1hi (by norm_num)

theorem C3_abuse_backoff_bounds_witness :
    ((smartRetryBackoff "API错误 (-352): 请求被风控" 0 (1/2) (1/3) 0 1).uaRotated = true ∧
      10000 ≤ (smartRetryBackoff "API错误 (-352): 请求被风控" 0 (1/2) (1/3) 0 1).delay ∧
      (smartRetryBackoff "API错误 (-352): 请求被风控" 0 (1/2) (1/3) 0 1).delay < 30000) ∧
    (30000 ≤ (smartRetryBackoff "API错误 (-352): 请求被风控" 1 (1/2) (1/3) 0 1).delay ∧
      (smartRetryBackoff "API错误 (-352): 请求被风控" 1 (1/2) (1/3) 0 1).delay < 90000) := by
  have h0 := C3_abuse_backoff_bounds "API错误 (-352): 请求被风控" 0 (1/2) (1/3) 0 1
    (by decide) (by norm_num) (by norm_num) (by norm_num) (by norm_num)
  have h1 := C3_abuse_backoff_bounds "API错误 (-352): 请求被风控" 1 (1/2) (1/3) 0 1
    (by decide) (by norm_num) (by norm_num) (by norm_num) (by norm_num)
  exact ⟨⟨h0.1, h0.2.2.1 rfl⟩, h1.2.2.2 (by norm_num)⟩

/-- **C4** — The claim asserts that an unchanged-live poll check whose
fetched title differs re-evaluates the title filter (re-arming or
cancelling the repeat timer).  In the source, `checkLiveStatus` assigns
`room.title = liveStatus.title` *before* testing
`room.title !== liveStatus.title`, so the title-change branch is
unreachable: for every room already live and every fetched still-live
status — title changed or not — the poll check updates only the stored
title, never invokes `handleTitleChange`, never consults the filter, and
leaves the filtered flag and timer state untouched. -/
theorem C4_title_change_branch_unreachable (filter : String → Bool) (now : Int)
    (pushTime : ℚ) (sub? : Option Subscription) (imageOk : Bool) (room : LiveRoom)
    (liveStatus : LiveStatus) (hLive : room.isLive = true)
    (hNow : liveStatus.live_status = 1) :
    checkLiveStatusSuccess filter now pushTime sub? imageOk room liveStatus =
      ({ room with title := liveStatus.title }, []) := by
  obtain ⟨rid, uid, uname, title, isLive, liveTime, pta, ib, oc⟩ := room
  simp only at hLive
  subst hLive
  simp [checkLiveStatusSuccess, hNow]

theorem C4_title_change_branch_unreachable_witness :
    checkLiveStatusSuccess demoFilter 1000 1 (some demoSub) true
      demoRoomLiveFilteredA demoStatusLiveGood =
      ({ demoRoomLiveFilteredA with title := "good B" }, []) :=
  C4_title_change_branch_unreachable demoFilter 1000 1 (some demoSub) true
    demoRoomLiveFilteredA demoStatusLiveGood rfl rfl

/-- **C8** — A live-room false→true transition whose new title is
rejected by the live filter emits no notification to any target and arms
no repeat timer (only the filtered flag is set); a subsequent true→false
transition while the flag is still set also emits no end notification
and clears the flag. -/
theorem C8_filtered_session_silent (filter : String → Bool) (now : Int) (pushTime : ℚ)
    (sub? sub?' : Option Subscription) (imageOk imageOk' : Bool) (room : LiveRoom)
    (s1 s2 : LiveStatus) (hOff : room.isLive = false) (hLive1 : s1.live_status = 1)
    (hFiltered : filter s1.title = true) (hEnd : s2.live_status ≠ 1) :
    checkLiveStatusSuccess filter now pushTime sub? imageOk room s1 =
      ({ room with title := s1.title, isLive := true, isBlocked := true }, []) ∧
    checkLiveStatusSuccess filter now pushTime sub?' imageOk'
        { room with title := s1.title, isLive := true, isBlocked := true } s2 =
      ({ room with title := s2.title, isLive := false, isBlocked := false }, []) := by
  obtain ⟨rid, uid, uname, title, isLive, liveTime, pta, ib, oc⟩ := room
  simp only at hOff
  subst hOff
  constructor
  · simp [checkLiveStatusSuccess, handleLiveStart, hLive1, hFiltered]
  · simp [checkLiveStatusSuccess, handleLiveEnd, hEnd]

theorem C8_filtered_session_silent_witness :
    checkLiveStatusSuccess demoFilter 500 1 (some demoSub) true demoRoomOff
        demoStatusLiveBad =
      ({ demoRoomOff with title := "bad title", isLive := true, isBlocked := true }, []) ∧
    checkLiveStatusSuccess demoFilter 500 1 (some demoSub) true
        { demoRoomOff with title := "bad title", isLive := true, isBlocked := true }
        demoStatusOff =
      ({ demoRoomOff with title := "bad title", isLive := false, isBlocked := false },
        []) := by
  have h := C8_filtered_session_silent demoFilter 500 1 (some demoSub) (some demoSub)
    true true demoRoomOff demoStatusLiveBad demoStatusOff rfl rfl (by decide) (by decide)
  exact h

/-- Helper: from an absent connection record every automatic bridge step
leaves the record absent and initiates no reconnect activity (the
accumulated actions only ever gain `connectedEvent`, which for an absent
record is impossible too — `onOpen` cannot fire without a record, but the
guard in the embedding is the `connections.get` lookup, so we show no
`scheduleReconnect`/`redial` is produced). -/
theorem runBridge_none_no_reconnect (steps : List BridgeStep) :
    (runBridge steps none).1 = none ∧
    BridgeAction.scheduleReconnect ∉ (runBridge steps none).2 ∧
    BridgeAction.redial ∉ (runBridge steps none).2 := by
  have key : ∀ (ss : List BridgeStep) (acc : List BridgeAction),
      (ss.foldl (fun acc step =>
          let r := bridgeAutoStep step acc.1
          ((r.1 : Option LiveRoomConnection), acc.2 ++ r.2))
        ((none : Option LiveRoomConnection), acc)).1 = none ∧
      ∀ a ∈ (ss.foldl (fun acc step =>
          let r := bridgeAutoStep step acc.1
          ((r.1 : Option LiveRoomConnection), acc.2 ++ r.2))
        ((none : Option LiveRoomConnection), acc)).2,
        a ∈ acc ∨ a = BridgeAction.connectedEvent := by
    intro ss
    induction ss with
    | nil => exact fun acc => ⟨rfl, fun a ha => Or.inl ha⟩
    | cons s rest ih =>
      intro acc
      cases s with
      | connError =>
        simpa [bridgeAutoStep, handleConnectionError] using ih acc
      | timerFire ok fresh =>
        simpa [bridgeAutoStep] using ih acc
      | openEvent =>
        have h := ih (acc ++ [BridgeAction.connectedEvent])
        refine ⟨by simpa [bridgeAutoStep] using h.1, ?_⟩
        intro a ha
        have ha' := h.2 a (by simpa [bridgeAutoStep] using ha)
        rcases ha' with h' | h'
        · rcases List.mem_append.mp h' with h'' | h''
          · exact Or.inl h''
          · simp at h''
            exact Or.inr h''
        · exact Or.inr h'
      | inbound now =>
        simpa [bridgeAutoStep] using ih acc
  have h := key steps []
  refine ⟨h.1, ?_, ?_⟩
  · intro hmem
    rcases h.2 _ hmem with h' | h'
    · simp at h'
    · cases h'
  · intro hmem
    rcases h.2 _ hmem with h' | h'
    · simp at h'
    · cases h'

/-- **C5** — Once a room's reconnect attempt count exceeds 3 (i.e. the
`handleConnectionError` raising it past the cap fires on a record whose
count is already ≥ 3), the room is terminally disconnected: the error is
logged, the connection record is removed and the `disconnected` event is
emitted, and afterwards no sequence of automatic bridge steps
(connection errors, pending reconnect timers firing, socket open events,
inbound messages) ever initiates another reconnect attempt — no reconnect
is scheduled and `connectRoom` is never redialed. -/
theorem C5_reconnect_cap_terminal (c : LiveRoomConnection) (hc : 3 ≤ c.reconnectCount)
    (steps : List BridgeStep) :
    handleConnectionError (some c) =
      (none, [BridgeAction.errorLog, BridgeAction.disconnectedEvent]) ∧
    (runBridge steps none).1 = none ∧
    BridgeAction.scheduleReconnect ∉ (runBridge steps none).2 ∧
    BridgeAction.redial ∉ (runBridge steps none).2 := by
  refine ⟨?_, runBridge_none_no_reconnect steps⟩
  have hgt : c.reconnectCount + 1 > 3 := by omega
  simp [handleConnectionError, hgt]

theorem C5_reconnect_cap_terminal_witness :
    handleConnectionError (some demoConn) =
      (none, [BridgeAction.errorLog, BridgeAction.disconnectedEvent]) ∧
    (runBridge [BridgeStep.connError, BridgeStep.timerFire true demoFreshConn,
        BridgeStep.openEvent, BridgeStep.inbound 5] none).1 = none ∧
    BridgeAction.scheduleReconnect ∉
      (runBridge [BridgeStep.connError, BridgeStep.timerFire true demoFreshConn,
        BridgeStep.openEvent, BridgeStep.inbound 5] none).2 ∧
    BridgeAction.redial ∉
      (runBridge [BridgeStep.connError, BridgeStep.timerFire true demoFreshConn,
        BridgeStep.openEvent, BridgeStep.inbound 5] none).2 :=
  C5_reconnect_cap_terminal demoConn (by decide)
    [BridgeStep.connError, BridgeStep.timerFire true demoFreshConn,
      BridgeStep.openEvent, BridgeStep.inbound 5]

/-- **C9** — Signing hard-fails only when no key pair has ever been
cached: `getWbi` returns an error iff the cache is empty and the fetch
fails; if the refresh fails but a previously fetched (possibly expired)
key pair exists, `getWbiKeys` proceeds with the stale pair; the
`SigningUnavailable` failure (`获取WBI密钥失败`) is raised exactly when the
fetch fails with an empty cache. -/
theorem C9_stale_cache_fallback (md5 enc : String → String) (now : Int)
    (fetch : Except String WbiKeys) (st : WbiCache)
    (params : List (String × ParamValue)) (currTime : Int) :
    ((∃ e, (getWbi md5 enc now fetch st params currTime).1 = .error e) ↔
      (st.wbiKeys = none ∧ ∃ e, fetch = .error e)) ∧
    (∀ ks e, st.wbiKeys = some ks → fetch = .error e →
      (getWbiKeys now fetch st).1 = .ok ks) ∧
    (∀ e, st.wbiKeys = none → fetch = .error e →
      (getWbiKeys now fetch st).1 = .error "获取WBI密钥失败") := by
  obtain ⟨ks?, expiry⟩ := st
  cases ks? with
  | none =>
    cases fetch with
    | ok newKs => simp [getWbi, getWbiKeys]
    | error e => simp [getWbi, getWbiKeys]
  | some ks =>
    by_cases hlt : now < expiry
    · cases fetch <;> simp [getWbi, getWbiKeys, hlt]
    · cases fetch <;> simp [getWbi, getWbiKeys, hlt]

theorem C9_stale_cache_fallback_witness :
    (getWbiKeys 1000 (Except.error "network down")
      { wbiKeys := some { img_key := "aaaa", sub_key := "bbbb" }, wbiKeysExpiry := 500 }).1 =
      .ok { img_key := "aaaa", sub_key := "bbbb" } ∧
    (getWbiKeys 1000 (Except.error "network down")
      { wbiKeys := none, wbiKeysExpiry := 0 }).1 = .error "获取WBI密钥失败" := by
  have h1 := C9_stale_cache_fallback (fun s => s) (fun s => s) 1000
    (Except.error "network down")
    { wbiKeys := some { img_key := "aaaa", sub_key := "bbbb" }, wbiKeysExpiry := 500 } [] 0
  have h2 := C9_stale_cache_fallback (fun s => s) (fun s => s) 1000
    (Except.error "network down") { wbiKeys := none, wbiKeysExpiry := 0 } [] 0
  exact ⟨h1.2.1 _ _ rfl rfl, h2.2.2 _ rfl rfl⟩

/-- Helper: unfolding of a property lookup on a cons cell. -/
theorem lookupParam_cons (p : String × ParamValue) (ps : List (String × ParamValue))
    (k : String) :
    lookupParam (p :: ps) k = if p.1 = k then some p.2 else lookupParam ps k := by
  by_cases h : p.1 = k <;> simp [lookupParam, List.find?_cons, h]

/-- Helper: property lookup after the in-place overwrite pass of
`Object.assign` (the key already exists somewhere in the object). -/
theorem lookupParam_map_set (ps : List (String × ParamValue)) (k k' : String)
    (v : ParamValue) :
    lookupParam (ps.map fun p => if p.1 = k then (k, v) else p) k' =
      (if k' = k then (if ps.any (fun p => p.1 = k) then some v else none)
       else lookupParam ps k') := by
  induction ps with
  | nil =>
    by_cases h : k' = k <;> simp [lookupParam, h]
  | cons p rest ih =>
    rw [List.map_cons]
    by_cases hp : p.1 = k
    · rw [if_pos hp, lookupParam_cons]
      by_cases hk : k' = k
      · subst hk
        rw [if_pos rfl, if_pos rfl]
        have : (p :: rest).any (fun p => p.1 = k') = true := by
          simp [List.any_cons, hp]
        rw [if_pos this]
      · have hkk' : ¬ k = k' := fun hh => hk hh.symm
        have hpk' : ¬ p.1 = k' := by rw [hp]; exact hkk'
        rw [if_neg hkk', ih, if_neg hk, if_neg hk, lookupParam_cons, if_neg hpk']
    · rw [if_neg hp, lookupParam_cons]
      by_cases hpk' : p.1 = k'
      · have hk : ¬ k' = k := fun hh => hp (hpk'.trans hh)
        rw [if_pos hpk', if_neg hk, lookupParam_cons, if_pos hpk']
      · rw [if_neg hpk', ih]
        by_cases hk : k' = k
        · subst hk
          rw [if_pos rfl, if_pos rfl]
          have : (p :: rest).any (fun p => p.1 = k') = rest.any (fun p => p.1 = k') := by
            simp [List.any_cons, hp]
          rw [this]
        · rw [if_neg hk, if_neg hk, lookupParam_cons, if_neg hpk']

/-- Helper: property lookup after the appending pass of `Object.assign`
(the key was absent, so it is added at the end). -/
theorem lookupParam_append_single (ps : List (String × ParamValue)) (k k' : String)
    (v : ParamValue) :
    lookupParam (ps ++ [(k, v)]) k' =
      (match lookupParam ps k' with
       | some w => some w
       | none => if k' = k then some v else none) := by
  induction ps with
  | nil =>
    by_cases h : k' = k
    · subst h
      simp [lookupParam]
    · have h' : ¬ k = k' := fun hh => h hh.symm
      simp [lookupParam, h, h']
  | cons p rest ih =>
    rw [List.cons_append, lookupParam_cons]
    by_cases hpk' : p.1 = k'
    · rw [if_pos hpk', lookupParam_cons, if_pos hpk']
    · rw [if_neg hpk', ih, lookupParam_cons, if_neg hpk']

/-- Helper: a key matched by no entry looks up to `none`. -/
theorem lookupParam_eq_none_of_not_any (ps : List (String × ParamValue)) (k : String)
    (h : ps.any (fun p => p.1 = k) = false) :
    lookupParam ps k = none := by
  induction ps with
  | nil => rfl
  | cons p rest ih =>
    simp only [List.any_cons, Bool.or_eq_false_iff] at h
    have hp : ¬ p.1 = k := by simpa using h.1
    rw [lookupParam_cons, if_neg hp]
    exact ih h.2

/-- **C10** — For every input parameter map, `encWbi` (and hence
`getWbi`, which hands the very same object to it) mutates the caller's
map in place: after the call the argument object contains the `wts` key
holding the injected unix timestamp, and no key other than `wts` is
added, removed, or changed; on the success path `getWbi`'s post-call
argument object is exactly `encWbi`'s. -/
theorem C10_params_in_place_frame (md5 enc : String → String)
    (params : List (String × ParamValue)) (img_key sub_key : String) (t : Int)
    (now : Int) (fetch : Except String WbiKeys) (st : WbiCache) :
    lookupParam (encWbi md5 enc params img_key sub_key t).2 "wts" =
      some (ParamValue.num t) ∧
    (∀ k, k ≠ "wts" →
      lookupParam (encWbi md5 enc params img_key sub_key t).2 k =
        lookupParam params k) ∧
    (∀ ks st', getWbiKeys now fetch st = (.ok ks, st') →
      (getWbi md5 enc now fetch st params t).2.2 =
        (encWbi md5 enc params ks.img_key ks.sub_key t).2) := by
  have h2 : (encWbi md5 enc params img_key sub_key t).2 =
      setParam params "wts" (.num t) := rfl
  refine ⟨?_, ?_, ?_⟩
  · rw [h2]
    unfold setParam
    by_cases hany : params.any (fun p => p.1 = "wts") = true
    · simp only [hany, if_pos, if_true]
      rw [lookupParam_map_set]
      simp [hany]
    · have hany' : params.any (fun p => p.1 = "wts") = false := by
        cases h : params.any (fun p => p.1 = "wts") with
        | false => rfl
        | true => exact absurd h hany
      simp only [hany', Bool.false_eq_true, if_false]
      rw [lookupParam_append_single,
        lookupParam_eq_none_of_not_any params "wts" hany']
      simp
  · intro k hk
    rw [h2]
    unfold setParam
    by_cases hany : params.any (fun p => p.1 = "wts") = true
    · simp only [hany, if_pos, if_true]
      rw [lookupParam_map_set]
      simp [hk]
    · have hany' : params.any (fun p => p.1 = "wts") = false := by
        cases h : params.any (fun p => p.1 = "wts") with
        | false => rfl
        | true => exact absurd h hany
      simp only [hany', Bool.false_eq_true, if_false]
      rw [lookupParam_append_single]
      cases hfind : lookupParam params k with
      | some w => simp
      | none => simp [hk]
  · intro ks st' h
    simp [getWbi, h]

theorem C10_params_in_place_frame_witness :
    lookupParam (encWbi (fun s => s) (fun s => s)
      [("mid", ParamValue.str "12345"), ("platform", ParamValue.str "web")]
      "aaaa" "bbbb" 1700000000).2 "wts" = some (ParamValue.num 1700000000) ∧
    lookupParam (encWbi (fun s => s) (fun s => s)
      [("mid", ParamValue.str "12345"), ("platform", ParamValue.str "web")]
      "aaaa" "bbbb" 1700000000).2 "mid" = some (ParamValue.str "12345") := by
  have h := C10_params_in_place_frame (fun s => s) (fun s => s)
    [("mid", ParamValue.str "12345"), ("platform", ParamValue.str "web")]
    "aaaa" "bbbb" 1700000000 0 (Except.error "e")
    { wbiKeys := none, wbiKeysExpiry := 0 }
  refine ⟨h.1, ?_⟩
  rw [h.2.1 "mid" (by decide)]
  decide
